import Mathlib

/-
Verification of the kb_Velvet service wrapper (lib/Velvet/VelvetImpl.py).

The module exposes two remote operations, `run_velveth` and `run_velvetg`,
plus a parameter validator `process_params`.  We give a shallow embedding of
the Python values the module manipulates (dictionaries of stringly-keyed
values), translate each method line by line, and settle the frozen claims
about the flow: validation, argv construction, subprocess handling,
statistics, and the two external service calls (AssemblyUtil and
KBaseReport, modelled as events in a trace).
-/

/-- A Python value, as far as VelvetImpl.py inspects values: `None`, booleans,
integers, floats (modelled exactly over `ℚ`), strings, lists and
string-keyed dictionaries. -/
inductive PyVal where
  | none
  | bool (b : Bool)
  | int (n : Int)
  | float (q : ℚ)
  | str (s : String)
  | list (xs : List PyVal)
  | dict (d : List (String × PyVal))

/-- The Python exceptions VelvetImpl.py can raise. -/
inductive PyErr where
  | valueError (msg : String)
  | keyError (key : String)
  | attributeError (name : String)
  | nameError (name : String)
  | typeError (msg : String)
  | zeroDivisionError
deriving DecidableEq

/-- An externally visible action of `run_velveth`: spawning the assembler
subprocess (`subprocess.Popen`, line 161), forwarding the contig file to the
storage client (`AssemblyUtil.save_assembly_from_fasta`, line 172), and
calling the report client (`KBaseReport.create_extended_report`, line 193). -/
inductive Event where
  | spawn
  | saveAssembly
  | createReport
deriving DecidableEq

/-- A Python dictionary with string keys, as passed for `params` and `ctx`. -/
abbrev PyDict := List (String × PyVal)

/-- Python's `isinstance(v, int)`.  `bool` is a subclass of `int` in Python,
so booleans pass this check. -/
def isinstance_int : PyVal → Bool
  | .int _ => true
  | .bool _ => true
  | _ => false

/-- Python's `type(v) != list`, negated: `type(v) == list`.  This is a strict
type test (no subclasses are involved for the values at hand). -/
def type_is_list : PyVal → Bool
  | .list _ => true
  | _ => false

/-- Python subscript `v[k]` for a string key: `KeyError` when the key is
absent, `TypeError` when `v` is not a dictionary. -/
def PyVal.getItem (v : PyVal) (k : String) : Except PyErr PyVal :=
  match v with
  | .dict d =>
    match d.lookup k with
    | some x => .ok x
    | Option.none => .error (.keyError k)
  | _ => .error (.typeError "object is not subscriptable")

/-- Python `'-' + v`: string concatenation, `TypeError` when `v` is not a
string. -/
def pyAddStr (s : String) (v : PyVal) : Except PyErr PyVal :=
  match v with
  | .str t => .ok (.str (s ++ t))
  | _ => .error (.typeError "can only concatenate str (not other type) to str")

/-- Python `v == s` for a string literal `s`: true exactly when `v` is that
string. -/
def pyEqStr (v : PyVal) (s : String) : Bool :=
  match v with
  | .str t => t == s
  | _ => false

/-- `Velvet.process_params` (VelvetImpl.py lines 52-67).  The checks run in
source order and the first failing one raises `ValueError` with the message
the source uses (typos included).  The redundant `if 'hash_length' in params`
on line 59 is subsumed by the raise on line 57-58, so at the `isinstance`
check the key is known to be present.  The trailing `for` loop (lines 66-67)
only logs each channel and cannot fail. -/
def process_params (params : PyDict) : Except PyErr Unit :=
  match params.lookup "workspace_name" with
  | Option.none => .error (.valueError "a string reprsenting workspace_name parameter is required")
  | some _ =>
  match params.lookup "out_folder" with
  | Option.none => .error (.valueError "a string reprsenting out_folder parameter is required")
  | some _ =>
  match params.lookup "hash_length" with
  | Option.none => .error (.valueError "an integerreprsenting  hash_length parameter is required")
  | some hl =>
  if isinstance_int hl = false then .error (.valueError "hash_length must be of type int")
  else
  match params.lookup "reads_channels" with
  | Option.none => .error (.valueError "key-val pairs representing the reads_channels parameter is required")
  | some rcs =>
  if type_is_list rcs = false then .error (.valueError "reads_channels must be a list")
  else .ok ()

/-- The rejection condition exactly as the claim words it: missing
`workspace_name`, or missing `out_folder`, or missing `hash_length`, or a
`hash_length` not of integer type, or a `reads_channels` that is not a list
(in particular, absent). -/
def claimedRejection (params : PyDict) : Prop :=
  params.lookup "workspace_name" = Option.none ∨
  params.lookup "out_folder" = Option.none ∨
  params.lookup "hash_length" = Option.none ∨
  (∃ v, params.lookup "hash_length" = some v ∧ isinstance_int v = false) ∨
  ¬ ∃ v, params.lookup "reads_channels" = some v ∧ type_is_list v = true

/-- The string class attributes of the `Velvet` class (lines 45-46): it
defines `VELVETH` and `VELVETG` and nothing called `MEGAHITH`. -/
def Velvet.attrs : List (String × String) :=
  [("VELVETH", "/kb/module/velvet/velveth"), ("VELVETG", "/kb/module/velvet/velvetg")]

/-- Python attribute access `self.<name>` on a `Velvet` instance, for the
class-level string constants: `AttributeError` when the class does not define
the attribute. -/
def Velvet.getattr (name : String) : Except PyErr String :=
  match Velvet.attrs.lookup name with
  | some v => .ok v
  | Option.none => .error (.attributeError name)

/-- `Velvet.run_velveth` (lines 115-219), as the pair of its outcome and the
trace of external actions it performs.  Line by line: line 118 reads
`ctx['token']`; line 121 runs `process_params`; line 124 reads
`params['out_fodler']` — the key is misspelled, while validation and the
docstring use `out_folder`, so a `KeyError` is raised whenever the caller did
not also supply the misspelled key; lines 125-127 read `hash_length`,
`workspace_name` and `reads_channels`; line 133 evaluates `self.MEGAHITH`,
an attribute the class never defines (it defines `VELVETH` and `VELVETG`),
raising `AttributeError`; line 136 would then evaluate `datetime.utcnow()`
with `datetime` never imported, a `NameError`.  Every path raises before
`subprocess.Popen` on line 161, so the trace is empty on all inputs. -/
def run_velveth (ctx params : PyDict) : Except PyErr PyVal × List Event :=
  match ctx.lookup "token" with
  | Option.none => (.error (.keyError "token"), [])
  | some _token =>
  match process_params params with
  | .error e => (.error e, [])
  | .ok _ =>
  match params.lookup "out_fodler" with
  | Option.none => (.error (.keyError "out_fodler"), [])
  | some _out_folder =>
  match params.lookup "hash_length" with
  | Option.none => (.error (.keyError "hash_length"), [])
  | some _hash_length =>
  match params.lookup "workspace_name" with
  | Option.none => (.error (.keyError "workspace_name"), [])
  | some _wsname =>
  match params.lookup "reads_channels" with
  | Option.none => (.error (.keyError "reads_channels"), [])
  | some _reads_channels =>
  match Velvet.getattr "MEGAHITH" with
  | .error e => (.error e, [])
  | .ok _head =>
  (.error (.nameError "datetime"), [])

/-- Line 144 of the argv loop: `velveth_cmd.append('-' + rc[file_format])`.
The subscript index is the bare identifier `file_format`, which is bound
nowhere in `run_velveth` nor at module level (the channel field is the
string `'file_format'`), so evaluating it raises `NameError` before anything
is appended. -/
def velvethLine144 (_rc : PyVal) : Except PyErr PyVal :=
  .error (.nameError "file_format")

/-- Lines 145-155 of the argv loop, the statements after the crashing
line 144: append `'-' + read_type`; when `read_type == 'reference'` also
append `read_file_info['reference_file']`; when `file_layout == 'separate'`
append `'-' + file_layout`, the `left_file` and the `right_file`, otherwise
append `read_file_info['read_file']`.  (Dead code in the source: line 144
raises first on every iteration.) -/
def velvethChannelArgsAfter144 (cmd : List PyVal) (rc : PyVal) : Except PyErr (List PyVal) := do
  let rt ← rc.getItem "read_type"
  let rts ← pyAddStr "-" rt
  let cmd1 := cmd ++ [rts]
  let cmd2 ←
    if pyEqStr rt "reference" then do
      let rfi ← rc.getItem "read_file_info"
      let rfile ← rfi.getItem "reference_file"
      pure (cmd1 ++ [rfile])
    else pure cmd1
  let fl ← rc.getItem "file_layout"
  if pyEqStr fl "separate" then do
    let fl2 ← rc.getItem "file_layout"
    let dashFl ← pyAddStr "-" fl2
    let rfi ← rc.getItem "read_file_info"
    let lf ← rfi.getItem "left_file"
    let rfi2 ← rc.getItem "read_file_info"
    let rf ← rfi2.getItem "right_file"
    pure (cmd2 ++ [dashFl, lf, rf])
  else do
    let rfi ← rc.getItem "read_file_info"
    let rdf ← rfi.getItem "read_file"
    pure (cmd2 ++ [rdf])

/-- One full iteration of the argv loop of `run_velveth` (lines 143-155):
line 144 first, then lines 145-155. -/
def velvethChannelArgs (cmd : List PyVal) (rc : PyVal) : Except PyErr (List PyVal) := do
  let dashFormat ← velvethLine144 rc
  velvethChannelArgsAfter144 (cmd ++ [dashFormat]) rc

/-- Lines 180-187: the contig statistics for the report.  `lengths` collects
`len(seq_record.seq)` for every record `SeqIO.parse` yields from the contig
file (a record here is a pair of identifier and sequence); the count is
`len(lengths)` and the average is `sum(lengths) / float(len(lengths))`,
which raises `ZeroDivisionError` when the file parses to no records.  The
float division is modelled exactly over `ℚ`. -/
def contigStats (records : List (String × String)) : Except PyErr (Nat × ℚ) :=
  let lengths : List ℕ := records.map (fun r => r.2.length)
  if lengths.length = 0 then .error .zeroDivisionError
  else .ok (lengths.length, (lengths.sum : ℚ) / (lengths.length : ℚ))

/-- The continuation of `run_velveth` from `retcode = p.wait()` (lines
164-211), parameterised by the subprocess exit code and the records the
output contig file parses to.  Lines 165-166: a non-zero `retcode` raises
`ValueError` with the code in the message, before any service call.
Lines 171-176: the storage call; its argument dictionary reads
`params['workspace_name']` and `params['output_contigset_name']` before the
call happens.  Lines 180-187: the statistics (see `contigStats`).  Lines
191-203: the argument of `create_extended_report` evaluates
`quastret['shock_id']` on line 197, and `quastret` is unbound, so a
`NameError` is raised before the report client is ever called. -/
def velvethAfterWait (params : PyDict) (retcode : Int)
    (records : List (String × String)) : Except PyErr PyVal × List Event :=
  if retcode ≠ 0 then
    (.error (.valueError ("Error running VELVETH, return code: " ++ toString retcode ++ "\n")), [])
  else
    match params.lookup "workspace_name" with
    | Option.none => (.error (.keyError "workspace_name"), [])
    | some _ =>
    match params.lookup "output_contigset_name" with
    | Option.none => (.error (.keyError "output_contigset_name"), [])
    | some _ =>
    match contigStats records with
    | .error e => (.error e, [Event.saveAssembly])
    | .ok _stats => (.error (.nameError "quastret"), [Event.saveAssembly])

/-- `Velvet.run_velvetg` (lines 221-315).  The generated body between the
`BEGIN run_velvetg` and `END run_velvetg` markers is empty, so the local
`output` is never assigned and line 311 (`if not isinstance(output, dict)`)
raises `NameError` on every call, before anything else happens. -/
def run_velvetg (_ctx _params : PyDict) : Except PyErr PyVal × List Event :=
  (.error (.nameError "output"), [])

/-- A params dictionary that satisfies everything `process_params` checks:
`workspace_name`, `out_folder`, an integer `hash_length` and a list
`reads_channels`. -/
def validParams : PyDict :=
  [("workspace_name", .str "wsname"), ("out_folder", .str "velvet_out"),
   ("hash_length", .int 21), ("reads_channels", .list [])]

/-- A context dictionary carrying the token `run_velveth` reads on line 118. -/
def ctx0 : PyDict := [("token", .str "tok")]

lemma run_velveth_events_nil (ctx params : PyDict) : (run_velveth ctx params).2 = [] := by
  unfold run_velveth
  repeat' split
  all_goals rfl

/-- Claim C1: the spec says that every params object passing validation is
carried through the whole flow to a report.  The code refutes this: the
fully valid params object below passes `process_params`, yet `run_velveth`
raises `KeyError('out_fodler')` on line 124 (the key is misspelled — the
validated and documented key is `out_folder`) and performs no external
action; even with the misspelled key supplied it would next raise
`AttributeError` on `self.MEGAHITH` (line 133).  The flow can never reach
the subprocess, the storage client or the report client. -/
theorem run_velveth_valid_params_key_error :
    process_params validParams = .ok () ∧
    run_velveth ctx0 validParams = (.error (.keyError "out_fodler"), []) :=
  ⟨rfl, rfl⟩

/-- Claim C2: `process_params` raises exactly on the inputs the claim
describes: missing `workspace_name`, missing `out_folder`, missing
`hash_length`, a `hash_length` failing `isinstance(·, int)`, or a
`reads_channels` that is not present as a list — and on no other input. -/
theorem process_params_error_iff_claimed_rejection (params : PyDict) :
    (∃ e, process_params params = .error e) ↔ claimedRejection params := by
  unfold process_params claimedRejection
  rcases hw : params.lookup "workspace_name" with _ | w
  · simp [hw]
  rcases ho : params.lookup "out_folder" with _ | o
  · simp [hw, ho]
  rcases hh : params.lookup "hash_length" with _ | hl
  · simp [hw, ho, hh]
  rcases hr : params.lookup "reads_channels" with _ | rcs
  · cases hint : isinstance_int hl <;> simp [hw, ho, hh, hr, hint]
  cases hint : isinstance_int hl
  · simp [hw, ho, hh, hr, hint]
  cases hlist : type_is_list rcs <;> simp [hw, ho, hh, hr, hint, hlist]

/-- Claim C3: when the assembler subprocess exits with a non-zero return
code, the continuation of `run_velveth` raises `ValueError` whose message
contains that exit code (lines 165-166), and neither the storage client nor
the report client is called afterwards (the trace of the continuation is
empty). -/
theorem velveth_nonzero_exit_raises_with_code (params : PyDict) (retcode : Int)
    (records : List (String × String)) (h : retcode ≠ 0) :
    (velvethAfterWait params retcode records).2 = [] ∧
    ∃ s t, (velvethAfterWait params retcode records).1 =
      .error (.valueError (s ++ toString retcode ++ t)) := by
  unfold velvethAfterWait
  rw [if_pos h]
  exact ⟨rfl, "Error running VELVETH, return code: ", "\n", rfl⟩

/-- Witness for C3 at exit code 1 with empty params and no records. -/
theorem velveth_nonzero_exit_raises_with_code_witness :
    (velvethAfterWait [] 1 []).2 = [] ∧
    ∃ s t, (velvethAfterWait [] 1 []).1 =
      .error (.valueError (s ++ toString (1 : Int) ++ t)) :=
  velveth_nonzero_exit_raises_with_code [] 1 [] (by decide)

/-- Claim C4: the claim describes the per-channel branches of the argv loop
(lines 147-155: append `reference_file` for read type `'reference'`, append
`'-separate'`, `left_file` and `right_file` for the separate layout, the
`read_file` otherwise).  The code refutes this for every channel: line 144
evaluates the unbound bare name `file_format` (the field name is the string
`'file_format'`), so every iteration raises `NameError` and no channel ever
contributes any of those arguments. -/
theorem velveth_channel_args_always_name_error (cmd : List PyVal) (rc : PyVal) :
    velvethChannelArgs cmd rc = .error (.nameError "file_format") :=
  rfl

/-- Claim C5: whenever the statistics step succeeds, the reported values are
exact — the contig count is the number of parsed records and the average
length is the sum of the record sequence lengths divided by the number of
records (the float division modelled exactly over `ℚ`).  The step fails
only on a record-less file (claim C10). -/
theorem contig_stats_exact (records : List (String × String)) (c : Nat) (a : ℚ)
    (h : contigStats records = .ok (c, a)) :
    c = records.length ∧
      a = ((records.map fun r => (r.2.length : ℚ)).sum) / (records.length : ℚ) := by
  simp only [contigStats] at h
  by_cases h0 : (records.map fun r => r.2.length).length = 0
  · rw [if_pos h0] at h
    exact absurd h (by simp)
  · rw [if_neg h0] at h
    injection h with h1
    rw [Prod.mk.injEq] at h1
    obtain ⟨hc, ha⟩ := h1
    subst hc
    subst ha
    constructor
    · simp
    · rw [Nat.cast_list_sum, List.map_map, List.length_map]
      rfl

/-- Witness for C5 at a one-record FASTA file with a four-base sequence. -/
theorem contig_stats_exact_witness :
    contigStats [("contig_1", "ACGT")] = .ok (1, ((4 : ℕ) : ℚ) / ((1 : ℕ) : ℚ)) ∧
    ((1 : ℕ) = ([("contig_1", "ACGT")] : List (String × String)).length ∧
      ((4 : ℕ) : ℚ) / ((1 : ℕ) : ℚ) =
        ((([("contig_1", "ACGT")] : List (String × String)).map
            fun r => (r.2.length : ℚ)).sum) /
          ((([("contig_1", "ACGT")] : List (String × String)).length : ℚ))) := by
  have h : contigStats [("contig_1", "ACGT")] = .ok (1, ((4 : ℕ) : ℚ) / ((1 : ℕ) : ℚ)) := by
    have h4 : "ACGT".length = 4 := rfl
    unfold contigStats
    simp [h4]
  exact ⟨h, contig_stats_exact [("contig_1", "ACGT")] 1 (((4 : ℕ) : ℚ) / ((1 : ℕ) : ℚ)) h⟩

/-- Claim C6: the spec says `run_velvetg` returns a structured result with
`report_name`/`report_ref` string fields.  The code refutes this on every
input: the generated method body is empty, the local `output` is never
assigned, and line 311 raises `NameError` before anything is returned. -/
theorem run_velvetg_always_name_error (ctx params : PyDict) :
    (run_velvetg ctx params).1 = .error (.nameError "output") ∧
    (run_velvetg ctx params).2 = [] :=
  ⟨rfl, rfl⟩

/-- Claim C7: for every params object `process_params` rejects, `run_velveth`
raises and performs no later step of the flow: the event trace is empty, so
no subprocess is spawned and neither the storage client nor the report
client is called. -/
theorem run_velveth_rejected_params_no_side_effects (ctx params : PyDict) (e : PyErr)
    (h : process_params params = .error e) :
    (∃ e2, (run_velveth ctx params).1 = .error e2) ∧ (run_velveth ctx params).2 = [] := by
  unfold run_velveth
  rcases ht : ctx.lookup "token" with _ | tok
  · simp [ht]
  · simp [ht, h]

/-- Witness for C7 at the empty params dictionary, rejected for its missing
`workspace_name`. -/
theorem run_velveth_rejected_params_no_side_effects_witness :
    (∃ e2, (run_velveth ctx0 []).1 = .error e2) ∧ (run_velveth ctx0 []).2 = [] :=
  run_velveth_rejected_params_no_side_effects ctx0 []
    (.valueError "a string reprsenting workspace_name parameter is required") rfl

/-- Claim C8: the spec says exactly one subprocess is spawned and waited on
per `run_velveth` call.  The code refutes this: every call raises before
reaching `subprocess.Popen` on line 161 (`KeyError` on the misspelled
`out_fodler`, or `AttributeError` on the undefined `self.MEGAHITH`; the
`subprocess` module is not even imported), so the number of spawn events is
zero on every input, never one. -/
theorem run_velveth_never_spawns (ctx params : PyDict) :
    ((run_velveth ctx params).2.count Event.spawn) = 0 := by
  rw [run_velveth_events_nil]
  rfl

/-- Claim C9: the `isinstance(params['hash_length'], int)` check accepts
Python booleans, since `bool` is a subclass of `int`: `process_params`
accepts otherwise-valid params whose `hash_length` is `True` or `False`. -/
theorem process_params_accepts_bool_hash_length :
    process_params [("workspace_name", .str "w"), ("out_folder", .str "o"),
      ("hash_length", .bool true), ("reads_channels", .list [])] = .ok () ∧
    process_params [("workspace_name", .str "w"), ("out_folder", .str "o"),
      ("hash_length", .bool false), ("reads_channels", .list [])] = .ok () :=
  ⟨rfl, rfl⟩

/-- Claim C10: the average-length line divides by `len(lengths)` with no
guard, so on a contig file parsing to no FASTA records the continuation of
`run_velveth` fails with `ZeroDivisionError` after the storage call and the
report client is never reached (the trace holds the storage event only). -/
theorem velveth_empty_contig_file_zero_division :
    velvethAfterWait (("output_contigset_name", .str "contigset") :: validParams) 0 [] =
      (.error .zeroDivisionError, [Event.saveAssembly]) :=
  rfl
